import Mathlib

/-!
Shallow embedding of the coze-studio slice:
  * `src/frontend/apps/coze-studio/src/pages/dify-management.tsx`
    (the Dify admin page `DifyManagementPage` and its companion modal
    `DifyImportModal`), and
  * `src/frontend/packages/workflow/components/src/hooks/use-workflow-resource-action/use-workflow-resource-menu-actions.tsx`
    (the resource menu-action hook, with its `exportWorkflow` and
    `importWorkflow` helpers).

Browser builtins (`JSON.parse`, `JSON.stringify`, `Date.now`,
`new Date().toISOString()`) and the network are external collaborators:
they are passed in as explicit parameters.  React `useState` setters are
modelled by explicit state records and state-transition functions that
return the updated state together with the list of issued backend calls.
-/

namespace Coze

/-- A JavaScript value as produced by `JSON.parse` (plus `undefined`, the
result of reading an absent object property).  Numbers are approximated by
`Int`; no claim depends on fractional numerics. -/
inductive JsVal where
  | undefined
  | null
  | bool (b : Bool)
  | num (n : Int)
  | str (s : String)
  | arr (elems : List JsVal)
  | obj (fields : List (String × JsVal))

/-- JavaScript property read `v[k]`: `undefined` on a non-object or an
absent key (the sources only read properties behind optional chains or
inside try/catch, so the thrown `TypeError` on `null`/`undefined` bases is
observationally the same caught-error path; no claim distinguishes it). -/
def JsVal.get (v : JsVal) (k : String) : JsVal :=
  match v with
  | .obj fields =>
    match fields.find? (fun p => p.1 == k) with
    | some p => p.2
    | none => .undefined
  | _ => .undefined

/-- JavaScript truthiness of a value. -/
def JsVal.truthy : JsVal → Bool
  | .undefined => false
  | .null => false
  | .bool b => b
  | .num n => n != 0
  | .str s => s != ""
  | .arr _ => true
  | .obj _ => true

/-- JavaScript strict equality `v === s` against a string literal. -/
def JsVal.strictEqStr (v : JsVal) (s : String) : Bool :=
  match v with
  | .str t => t == s
  | _ => false

/-- JavaScript `a || b` (returns the first operand when truthy, else the
second). -/
def JsVal.orElse (a b : JsVal) : JsVal :=
  if a.truthy then a else b

/-- JavaScript `Array.isArray`. -/
def JsVal.isArray : JsVal → Bool
  | .arr _ => true
  | _ => false

mutual

/-- JavaScript string coercion, as used by template literals and `+` on a
string; array elements join with `,`, `null`/`undefined` elements print
empty. -/
def JsVal.jsToString : JsVal → String
  | .undefined => "undefined"
  | .null => "null"
  | .bool b => cond b "true" "false"
  | .num n => toString n
  | .str s => s
  | .arr es => JsVal.jsToStringElems es
  | .obj _ => "[object Object]"

/-- Element-wise string coercion for arrays (comma-joined). -/
def JsVal.jsToStringElems : List JsVal → String
  | [] => ""
  | [e] => JsVal.jsToStringElem e
  | e :: rest => JsVal.jsToStringElem e ++ "," ++ JsVal.jsToStringElems rest

/-- One array element under string coercion. -/
def JsVal.jsToStringElem : JsVal → String
  | .undefined => ""
  | .null => ""
  | v => JsVal.jsToString v

end

/-- Truthiness of a TypeScript optional string (`!x` is true for an absent
or empty string). -/
def strTruthy : Option String → Bool
  | none => false
  | some s => s != ""

/-! ## Dify admin page (`dify-management.tsx`, `DifyManagementPage`) -/

/-- The `type` tag of a `DifyApp` (`'chat' | 'completion' | 'workflow'`). -/
inductive AppType where
  | chat
  | completion
  | workflow
deriving DecidableEq, Repr

/-- `interface DifyApp` (the modal's variant additionally carries the
optional `api_endpoint`; the page's variant simply never sets it). -/
structure DifyApp where
  id : String
  name : String
  description : String
  type : AppType
  api_endpoint : Option String := none
deriving DecidableEq, Repr

/-- `interface DifyConfigFormState` (`difyHost`, `apiKey`). -/
structure DifyConfigFormState where
  difyHost : String
  apiKey : String
deriving DecidableEq, Repr

/-- `scanDifyApps` (dify-management.tsx lines 90–125): ignoring the
loading-flag bookkeeping and toasts, it replaces the scanned-app list with
a synthesized chat app whose id is the current API key, plus one fixed
example workflow.  No network probe and no key-prefix inference occurs. -/
def scanDifyApps (form : DifyConfigFormState) : List DifyApp :=
  [ { id := form.apiKey
      name := "从 Dify 导入的聊天应用"
      description := "使用 API Key: " ++ form.apiKey.take 10 ++ "... 的聊天应用"
      type := AppType.chat },
    { id := "example-workflow-001"
      name := "示例工作流"
      description := "从 Dify 导入的示例工作流"
      type := AppType.workflow } ]

/-- The JSON body of one `POST /api/plugin_api/register_plugin_meta` call.
`common_params` is the same constant on every call and is kept as a raw
JavaScript value. -/
structure PluginRegistration where
  name : String
  desc : String
  plugin_type : Nat
  creation_method : Nat
  url : String
  auth_type : List Nat
  sub_auth_type : Nat
  location : Nat
  key : String
  service_token : String
  common_params : JsVal

/-- The constant `common_params` list sent with every registration
(`[{}, {}, {}, {}, [{ name: 'User-Agent', value: 'Coze/1.0' }]]`). -/
def commonParamsConst : JsVal :=
  .arr [.obj [], .obj [], .obj [], .obj [],
        .arr [.obj [("name", .str "User-Agent"), ("value", .str "Coze/1.0")]]]

/-- The registration request body built by `registerSelectedApps`
(dify-management.tsx lines 143–161) for one app. -/
def mkRegistrationCall (form : DifyConfigFormState) (app : DifyApp) :
    PluginRegistration :=
  { name := app.name
    desc := app.description
    plugin_type := 1
    creation_method := 1
    url := form.difyHost ++ "/v1/" ++
      (if app.type = AppType.chat then "chat-messages"
       else "workflows/" ++ app.id ++ "/run")
    auth_type := [1, 0]
    sub_auth_type := 0
    location := 1
    key := "Authorization"
    service_token := "Bearer " ++ form.apiKey
    common_params := commonParamsConst }

/-- Local state of `DifyManagementPage` relevant to registration. -/
structure PageState where
  configForm : DifyConfigFormState
  apps : List DifyApp
  selectedApps : List String
  importedApps : List DifyApp

/-- Outcome of a registration batch: the empty-selection warning toast, the
success toast, or the failure toast. -/
inductive RegisterOutcome where
  | warnedEmpty
  | success
  | failed
deriving DecidableEq, Repr

/-- Observable result of `registerSelectedApps` / `handleImportSuccess`:
the registration calls issued in order, the toast outcome, whether the page
navigated to `/library`, and the page-local lists afterwards. -/
structure RegisterResult where
  calls : List PluginRegistration
  outcome : RegisterOutcome
  navigated : Bool
  appsAfter : List DifyApp
  selectedAppsAfter : List String
  importedAppsAfter : List DifyApp

/-- The `for (const appId of selectedApps)` loop of `registerSelectedApps`
(lines 138–166).  `respond k` is the HTTP `response.ok` of the `k`-th call
actually issued (each call is awaited before the next begins); an id with
no matching app in `apps` is skipped by `if (!app) continue`; a non-ok
response throws out of the loop after that call. -/
def registerLoop (form : DifyConfigFormState) (apps : List DifyApp)
    (respond : Nat → Bool) :
    Nat → List String → List PluginRegistration × Bool
  | _, [] => ([], true)
  | k, id :: rest =>
    match apps.find? (fun a => a.id == id) with
    | none => registerLoop form apps respond k rest
    | some app =>
      let call := mkRegistrationCall form app
      if respond k then
        let r := registerLoop form apps respond (k + 1) rest
        (call :: r.1, r.2)
      else
        ([call], false)

/-- `registerSelectedApps` (dify-management.tsx lines 127–182) as a state
transition.  An empty selection is rejected with a warning toast before any
network call.  On success the page navigates to `/library`; neither the
success nor the failure branch modifies `apps`, `selectedApps` or
`importedApps`. -/
def registerSelectedApps (st : PageState) (respond : Nat → Bool) :
    RegisterResult :=
  if st.selectedApps.length = 0 then
    { calls := []
      outcome := RegisterOutcome.warnedEmpty
      navigated := false
      appsAfter := st.apps
      selectedAppsAfter := st.selectedApps
      importedAppsAfter := st.importedApps }
  else
    let r := registerLoop st.configForm st.apps respond 0 st.selectedApps
    { calls := r.1
      outcome := if r.2 then RegisterOutcome.success else RegisterOutcome.failed
      navigated := r.2
      appsAfter := st.apps
      selectedAppsAfter := st.selectedApps
      importedAppsAfter := st.importedApps }

/-- The registration request body built by `handleImportSuccess`
(dify-management.tsx lines 213–231): identical to the one from
`registerSelectedApps` except that a truthy `api_endpoint` on the app
overrides the constructed URL (`app.api_endpoint || ...`). -/
def mkImportRegistrationCall (form : DifyConfigFormState) (app : DifyApp) :
    PluginRegistration :=
  let constructed := form.difyHost ++ "/v1/" ++
      (if app.type = AppType.chat then "chat-messages"
       else "workflows/" ++ app.id ++ "/run")
  { mkRegistrationCall form app with
    url := match app.api_endpoint with
           | some e => if e == "" then constructed else e
           | none => constructed }

/-- The `for (const app of importedApps)` loop of `handleImportSuccess`
(lines 212–236): every given app is registered (no membership filter); a
non-ok response throws after that call. -/
def importSuccessLoop (form : DifyConfigFormState) (respond : Nat → Bool) :
    Nat → List DifyApp → List PluginRegistration × Bool
  | _, [] => ([], true)
  | k, app :: rest =>
    let call := mkImportRegistrationCall form app
    if respond k then
      let r := importSuccessLoop form respond (k + 1) rest
      (call :: r.1, r.2)
    else
      ([call], false)

/-- `handleImportSuccess` (dify-management.tsx lines 207–255) as a state
transition: registers each given app; on success appends the given apps to
`importedApps` and navigates to `/library`.  The page's own `selectedApps`
and `apps` lists are untouched on every path. -/
def handleImportSuccess (st : PageState) (given : List DifyApp)
    (respond : Nat → Bool) : RegisterResult :=
  let r := importSuccessLoop st.configForm respond 0 given
  if r.2 then
    { calls := r.1
      outcome := RegisterOutcome.success
      navigated := true
      appsAfter := st.apps
      selectedAppsAfter := st.selectedApps
      importedAppsAfter := st.importedApps ++ given }
  else
    { calls := r.1
      outcome := RegisterOutcome.failed
      navigated := false
      appsAfter := st.apps
      selectedAppsAfter := st.selectedApps
      importedAppsAfter := st.importedApps }

/-! ## Import modal (`dify-import-modal`, `DifyImportModal`) -/

/-- `importFromText` (modal lines 568–587), applied to the result of
`JSON.parse` on the pasted text (`none` models a parse exception).  A bare
array replaces the scanned-app list with its elements; otherwise a truthy
`apps` property replaces it with that property's value; anything else
throws, leaving the scanned list unchanged (`none`). -/
def importFromText (parsed : Option JsVal) : Option JsVal :=
  match parsed with
  | none => none
  | some config =>
    if config.isArray then
      some config
    else if (config.get "apps").truthy then
      some (config.get "apps")
    else
      none

/-! ## Resource menu actions
(`use-workflow-resource-menu-actions.tsx`, `useWorkflowResourceMenuActions`) -/

/-- The server action keys used by the hook
(`resource_resource_common.ActionKey`). -/
inductive ActionKey where
  | Copy
  | Delete
  | Edit
  | SwitchToFuncflow
  | SwitchToChatflow
deriving DecidableEq, Repr

/-- One entry of a record's server-supplied `actions` list: an action key
with an optional `enable` flag. -/
structure ActionConfig where
  key : ActionKey
  enable : Option Bool
deriving DecidableEq, Repr

/-- Resource types from `plugin_develop.ResType`; only `Imageflow` is
tested by the hook, the others are collapsed into representative tags. -/
inductive ResType where
  | Workflow
  | Imageflow
  | Other
deriving DecidableEq, Repr

/-- The parsed biz-extend structure.

Modelled from the spec: `parseWorkflowResourceBizExtend` lives in
`./utils`, which is not among the provided sources.  The spec describes the
record's "opaque biz extend blob parsed into a structured object carrying
product-draft status and an associated plugin id", so the parsed result is
modelled as a structure carrying exactly those two fields, with the plugin
id a string compared against the sentinel `'0'`. -/
structure BizExtend where
  product_draft_status : Option Nat
  plugin_id : String
deriving DecidableEq, Repr

/-- Modelled from the spec: the parse of the biz-extend blob (the blob is
represented by its parsed content, so the parse is the identity). -/
def parseWorkflowResourceBizExtend (b : BizExtend) : BizExtend := b

/-- The slice of `ResourceInfo` read by the hook and by
`exportWorkflow`. -/
structure ResourceInfo where
  res_id : Option String
  space_id : Option String
  res_type : ResType
  creator_id : Option String
  collaboration_enable : Option Bool
  actions : Option (List ActionConfig)
  biz_extend : BizExtend

/-- `actions?.find(action => action.key === k)` — the first entry of the
server-supplied action list with the given key, if the list is present. -/
def findAction (actions : Option (List ActionConfig)) (k : ActionKey) :
    Option ActionConfig :=
  match actions with
  | none => none
  | some l => l.find? (fun a => a.key == k)

/-- The visibility/enablement flags of one rendered menu entry.  `hide` and
`disabled` are the props handed to the design-system's menu item /
`Table.TableAction`; a `hide = true` entry is not rendered at all, a
`disabled = true` entry renders greyed out. -/
structure MenuEntry where
  hide : Bool
  disabled : Bool
deriving DecidableEq, Repr

/-- A menu entry whose `hide` / `disabled` both derive from a server action
config: hidden iff the key is absent, disabled iff `enable` is explicitly
`false` (`config?.enable === false`). -/
def serverEntry (config : Option ActionConfig) : MenuEntry :=
  { hide := config.isNone
    disabled := match config with
                | some c => c.enable == some false
                | none => false }

/-- The hide/disabled flags of every row action produced by
`renderWorkflowResourceActions` (hook lines 250–343).  Handlers, labels and
the caller-supplied `getCommonActions` extension are ambient collaborators
and carry no visibility logic of their own, so only the flags are
modelled. -/
structure RenderedActions where
  edit : MenuEntry
  exportEntry : MenuEntry
  importEntry : MenuEntry
  switchChatflow : MenuEntry
  switchWorkflow : MenuEntry
  publish : MenuEntry
  deleteEntry : MenuEntry
  copyEntry : MenuEntry
deriving DecidableEq, Repr

/-- `renderWorkflowResourceActions` (hook lines 250–343), restricted to the
visibility/enablement flags.  `enablePublishEntry` comes from
`useWorkflowPublishEntry`, `storeImageflowFlag` is
`FLAGS['bot.community.store_imageflow']`, `userId` is the hook prop (both
it and `record.creator_id` may be absent; JavaScript `===` then compares
the two possibly-undefined values, which `Option` equality mirrors). -/
def renderWorkflowResourceActions (enablePublishEntry : Bool)
    (storeImageflowFlag : Bool) (userId : Option String)
    (record : ResourceInfo) : RenderedActions :=
  let bizExtend := parseWorkflowResourceBizExtend record.biz_extend
  let isImageFlow := record.res_type == ResType.Imageflow
  let deleteActionConfig := findAction record.actions ActionKey.Delete
  let copyActionConfig := findAction record.actions ActionKey.Copy
  let editConfig := findAction record.actions ActionKey.Edit
  let chatflowConfig := findAction record.actions ActionKey.SwitchToChatflow
  let workflowConfig := findAction record.actions ActionKey.SwitchToFuncflow
  let isSelfCreator := record.creator_id == userId
  { edit := serverEntry editConfig
    exportEntry := { hide := false, disabled := false }
    importEntry := { hide := false, disabled := false }
    switchChatflow := serverEntry chatflowConfig
    switchWorkflow := serverEntry workflowConfig
    publish :=
      { hide := !enablePublishEntry ||
          (!storeImageflowFlag && isImageFlow) ||
          !isSelfCreator ||
          (bizExtend.plugin_id == "0")
        disabled := false }
    deleteEntry := serverEntry deleteActionConfig
    copyEntry := serverEntry copyActionConfig }

/-! ## Workflow export / import
(`exportWorkflow` and `importWorkflow` in the same hook file) -/

/-- The slice of the workflow detail (`canvasRes.data.workflow`) read by
`exportWorkflow`.  Fields other than `schema_json` are copied verbatim into
the export document, so they are kept as raw JavaScript values;
`schema_json` is the backend's JSON-encoded graph schema, an optional
string. -/
structure WorkflowInfo where
  workflow_id : JsVal
  name : JsVal
  desc : JsVal
  icon_uri : JsVal
  create_time : JsVal
  update_time : JsVal
  creator : JsVal
  flow_mode : JsVal
  schema_type : JsVal
  schema_json : Option String

/-- An optional string as a JavaScript property value (`undefined` when
absent). -/
def optStrToJs : Option String → JsVal
  | none => JsVal.undefined
  | some s => JsVal.str s

/-- Modelled from the spec: the numeric wire encoding of
`plugin_develop.ResType` lives in the external API package; the spec calls
the metadata block "an export-time metadata block" without fixing the
encoding, and no claim depends on it. -/
def resTypeToJs : ResType → JsVal
  | ResType.Workflow => JsVal.num 2
  | ResType.Imageflow => JsVal.num 3
  | ResType.Other => JsVal.num 0

/-- The `workflowData` export document assembled by `exportWorkflow` (hook
lines 74–97).  `parse` is the browser's `JSON.parse` (applied to
`schema_json` when that string is truthy; otherwise `schema` is `null`);
`exportTime` is `new Date().toISOString()`. -/
def exportDocument (record : ResourceInfo) (info : WorkflowInfo)
    (parse : String → JsVal) (exportTime : String) : JsVal :=
  .obj [("type", .str "WORKFLOW_EXPORT"),
        ("version", .str "1.0"),
        ("workflowId", info.workflow_id),
        ("name", info.name),
        ("desc", info.desc),
        ("iconUri", info.icon_uri),
        ("createTime", info.create_time),
        ("updateTime", info.update_time),
        ("creator", info.creator),
        ("flowMode", info.flow_mode),
        ("schemaType", info.schema_type),
        ("schema",
          match info.schema_json with
          | some s => if s == "" then JsVal.null else parse s
          | none => JsVal.null),
        ("schemaRaw", optStrToJs info.schema_json),
        ("metadata", .obj
          [("spaceId", optStrToJs record.space_id),
           ("resType", resTypeToJs record.res_type),
           ("collaborationEnable",
             match record.collaboration_enable with
             | none => JsVal.undefined
             | some b => JsVal.bool b),
           ("exportTime", .str exportTime)])]

/-- Backend calls issued by `exportWorkflow` / the `importWorkflow` file
handler.  Payload fields that JavaScript fills from possibly-absent
document properties are kept as raw values. -/
inductive WorkflowApiCall where
  | getCanvasInfo (space_id workflow_id : String)
  | createWorkflow (name : String) (desc icon_uri : JsVal) (space_id : String)
      (flow_mode schema_type : JsVal)
  | saveWorkflow (workflow_id : String) (schema : String) (space_id : String)
      (name : String) (desc icon_uri : JsVal)

/-- Observable result of `exportWorkflow`: the backend calls issued and the
downloaded file (name and document), if any. -/
structure ExportResult where
  calls : List WorkflowApiCall
  download : Option (String × JsVal)

/-- `exportWorkflow` (hook lines 47–121).  A record with a falsy `res_id`
or `space_id` returns after logging, before any backend call.  `fetch`
models `workflowApi.GetCanvasInfo` followed by `canvasRes?.data?.workflow`
(`none` when no workflow body comes back). -/
def exportWorkflow (record : ResourceInfo)
    (fetch : String → String → Option WorkflowInfo)
    (parse : String → JsVal) (exportTime : String) : ExportResult :=
  if !(strTruthy record.res_id) || !(strTruthy record.space_id) then
    { calls := [], download := none }
  else
    let rid := record.res_id.getD ""
    let sid := record.space_id.getD ""
    let call := WorkflowApiCall.getCanvasInfo sid rid
    match fetch sid rid with
    | none => { calls := [call], download := none }
    | some info =>
      { calls := [call]
        download := some
          ("workflow-" ++ info.name.jsToString ++ "-" ++
             info.workflow_id.jsToString ++ ".json",
           exportDocument record info parse exportTime) }

/-- The user-facing alert for a document failing import's format check. -/
def invalidFormatMsg : String := "无效的工作流文件格式，请选择正确的导出文件"

/-- The import format validation of `importWorkflow` (hook line 143):
`content.type !== 'WORKFLOW_EXPORT' || !content.schema` rejects. -/
def importFormatValid (content : JsVal) : Bool :=
  (content.get "type").strictEqStr "WORKFLOW_EXPORT" &&
    (content.get "schema").truthy

/-- Observable result of the `importWorkflow` file-load handler: the
backend calls issued in order, the blocking alert shown (if any), and
whether the caller-supplied page refresh was requested. -/
structure ImportOutcome where
  calls : List WorkflowApiCall
  alert : Option String
  refreshRequested : Bool

/-- The `reader.onload` handler of `importWorkflow` (hook lines 137–206),
applied to the parsed file content.  `spaceId` is the hook prop
(`importProps.spaceId`, falsy when absent or empty); `now1`/`now2` are the
two separate `Date.now()` reads; `stringify` is the browser's
`JSON.stringify` used when the schema is not a string; `createResp` is
`createRes?.data?.workflow_id`.  An invalid format or a missing space id
alerts and returns before any backend call; a falsy created id alerts
failure after the create call; otherwise the schema is saved to the new
workflow, a success alert shows and a page refresh is requested. -/
def importOnLoad (content : JsVal) (spaceId : Option String)
    (now1 now2 : Nat) (stringify : JsVal → String)
    (createResp : Option String) : ImportOutcome :=
  if !(importFormatValid content) then
    { calls := [], alert := some invalidFormatMsg, refreshRequested := false }
  else if !(strTruthy spaceId) then
    { calls := [], alert := some "缺少空间ID，无法导入工作流"
      refreshRequested := false }
  else
    let sid := spaceId.getD ""
    let createCall := WorkflowApiCall.createWorkflow
      ((content.get "name").jsToString ++ "_imported_" ++ toString now1)
      ((content.get "desc").orElse (.str "导入的工作流"))
      ((content.get "iconUri").orElse (.str ""))
      sid
      ((content.get "flowMode").orElse (.num 0))
      ((content.get "schemaType").orElse (.num 1))
    if strTruthy createResp then
      let wid := createResp.getD ""
      -- the format check already ensured `content.schema` is truthy, so the
      -- inner `if (content.schema)` always saves
      let saveCall := WorkflowApiCall.saveWorkflow wid
        (match content.get "schema" with
         | .str s => s
         | v => stringify v)
        sid
        ((content.get "name").jsToString ++ "_imported_" ++ toString now2)
        ((content.get "desc").orElse (.str "导入的工作流"))
        ((content.get "iconUri").orElse (.str ""))
      { calls := [createCall, saveCall]
        alert := some "工作流导入成功！"
        refreshRequested := true }
    else
      { calls := [createCall]
        alert := some "工作流创建失败，请检查控制台了解详细信息"
        refreshRequested := false }

/-! ## Concrete sample inputs for witnesses and counterexamples -/

/-- A form state with the host and key of the spec's scenario. -/
def sampleForm : DifyConfigFormState := { difyHost := "http://h", apiKey := "app-abc" }

/-- A scanned chat app. -/
def sampleApp : DifyApp :=
  { id := "dify-a", name := "A", description := "da", type := AppType.chat }

/-- A page state whose single selected id matches the single scanned app. -/
def sampleState : PageState :=
  { configForm := sampleForm, apps := [sampleApp], selectedApps := ["dify-a"]
    importedApps := [] }

/-- A page state whose selected id is absent from the scan-result set. -/
def staleSelectionState : PageState :=
  { configForm := sampleForm, apps := [], selectedApps := ["missing-id"]
    importedApps := [] }

/-- A page state with one stale and one live selected id. -/
def mixedSelectionState : PageState :=
  { configForm := sampleForm, apps := [sampleApp]
    selectedApps := ["missing-id", "dify-a"], importedApps := [] }

/-- The parsed pasted text of the C9 scenario:
`JSON.parse` applied (externally, by the browser) to
`\x7b"apps":[\x7b"id":"x","name":"n","type":"chat","description":"d"\x7d]\x7d`. -/
def scenarioTextParsed : JsVal :=
  .obj [("apps", .arr
    [.obj [("id", .str "x"), ("name", .str "n"), ("type", .str "chat"),
           ("description", .str "d")]])]

/-- The single app descriptor inside `scenarioTextParsed`. -/
def scenarioApp : JsVal :=
  .obj [("id", .str "x"), ("name", .str "n"), ("type", .str "chat"),
        ("description", .str "d")]

/-- A resource record with both identifiers present. -/
def sampleRecord : ResourceInfo :=
  { res_id := some "w1", space_id := some "s1", res_type := ResType.Workflow
    creator_id := some "u1", collaboration_enable := none, actions := none
    biz_extend := { product_draft_status := none, plugin_id := "1" } }

/-- A fetched workflow detail that carries no `schema_json`. -/
def schemalessInfo : WorkflowInfo :=
  { workflow_id := .str "w1", name := .str "wf", desc := .undefined
    icon_uri := .undefined, create_time := .undefined, update_time := .undefined
    creator := .undefined, flow_mode := .undefined, schema_type := .undefined
    schema_json := none }

/-- A fetched workflow detail with a truthy `schema_json`. -/
def schemaInfo : WorkflowInfo :=
  { schemalessInfo with schema_json := some "\x7b\x7d" }

/-- A stand-in for the browser's `JSON.parse` used at concrete inputs: the
only string the witnesses parse is the object text. -/
def sampleJsonParse (s : String) : JsVal :=
  if s == "\x7b\x7d" then .obj [] else .null

/-! ## Helper lemmas -/

/-- Under all-ok responses, the registration loop issues exactly one call
per selected id that matches a scanned app, in selection order, and
reports success. -/
theorem registerLoop_allOk (form : DifyConfigFormState) (apps : List DifyApp)
    (respond : Nat → Bool) (hok : ∀ k, respond k = true) :
    ∀ (ids : List String) (k : Nat),
      registerLoop form apps respond k ids =
        (ids.filterMap (fun id =>
          (apps.find? (fun a => a.id == id)).map (mkRegistrationCall form)),
         true) := by
  intro ids
  induction ids with
  | nil => intro k; rfl
  | cons id rest ih =>
    intro k
    simp only [registerLoop, List.filterMap_cons]
    cases h : apps.find? (fun a => a.id == id) with
    | none => simpa using ih k
    | some app => simp [hok k, ih (k + 1)]

/-- The length of a `filterMap` equals the length of the `isSome`
filter. -/
theorem length_filterMap_isSome {α β : Type} (f : α → Option β) :
    ∀ l : List α,
      (l.filterMap f).length = (l.filter (fun x => (f x).isSome)).length := by
  intro l
  induction l with
  | nil => rfl
  | cons x xs ih =>
    cases h : f x <;> simp [List.filterMap_cons, List.filter_cons, h, ih]

/-- Under all-ok responses, `handleImportSuccess`'s loop registers every
given app, in order, and reports success. -/
theorem importSuccessLoop_allOk (form : DifyConfigFormState)
    (respond : Nat → Bool) (hok : ∀ k, respond k = true) :
    ∀ (given : List DifyApp) (k : Nat),
      importSuccessLoop form respond k given =
        (given.map (mkImportRegistrationCall form), true) := by
  intro given
  induction given with
  | nil => intro k; rfl
  | cons app rest ih =>
    intro k
    simp [importSuccessLoop, hok k, ih (k + 1)]

/-! ## Claim C1 -/

/-- C1 counterexample: a selection of size 1 whose id is not in the
scan-result set issues zero registration calls, not exactly one — the
claim's "exactly N POST calls" fails as stated. -/
theorem c1_exactly_n_calls_counterexample :
    staleSelectionState.selectedApps.length = 1 ∧
    (registerSelectedApps staleSelectionState (fun _ => true)).calls.length = 0 := by
  constructor <;> rfl

/-- C1 (amended): an empty selection is rejected with a warning toast
before any network call; otherwise, when every issued call succeeds, the
registration calls are exactly one per selected id that is present in the
scan-result set — issued sequentially in selection-list order (so with
every selected id present, exactly N calls for a selection of size N); a
selected id absent from the scan set is skipped, and a failing call aborts
the remainder of the batch. -/
theorem c1_register_batch_amended (st : PageState) (respond : Nat → Bool)
    (hok : ∀ k, respond k = true) :
    (st.selectedApps = [] →
      registerSelectedApps st respond =
        { calls := [], outcome := RegisterOutcome.warnedEmpty
          navigated := false, appsAfter := st.apps
          selectedAppsAfter := st.selectedApps
          importedAppsAfter := st.importedApps }) ∧
    (registerSelectedApps st respond).calls =
      st.selectedApps.filterMap (fun id =>
        (st.apps.find? (fun a => a.id == id)).map
          (mkRegistrationCall st.configForm)) := by
  constructor
  · intro h
    simp [registerSelectedApps, h]
  · by_cases h : st.selectedApps.length = 0
    · simp [registerSelectedApps, h, List.length_eq_zero.mp h]
    · simp [registerSelectedApps, h,
        registerLoop_allOk st.configForm st.apps respond hok st.selectedApps 0]

/-- C1 witness: at a concrete state with one selected id matching one
scanned app and an all-ok backend, the amended theorem yields exactly the
one expected call. -/
theorem c1_register_batch_amended_witness :
    (registerSelectedApps sampleState (fun _ => true)).calls =
      [mkRegistrationCall sampleForm sampleApp] := by
  have h := (c1_register_batch_amended sampleState (fun _ => true)
    (fun _ => rfl)).2
  simpa [sampleState, sampleForm, sampleApp] using h

/-! ## Claim C10 -/

/-- C10: during a batch registration with a non-empty selection and an
all-succeeding backend, selected ids absent from the scan-result set are
silently skipped — the batch still reports success, and the number of
registration calls equals the number of selected ids that are members of
the scan-result set (which can be strictly smaller than the selection
size). -/
theorem c10_skip_missing_selected (st : PageState) (respond : Nat → Bool)
    (hok : ∀ k, respond k = true) (hne : st.selectedApps ≠ []) :
    (registerSelectedApps st respond).outcome = RegisterOutcome.success ∧
    (registerSelectedApps st respond).calls.length =
      (st.selectedApps.filter (fun id =>
        (st.apps.find? (fun a => a.id == id)).isSome)).length := by
  have hlen : st.selectedApps.length ≠ 0 := by
    simpa [List.length_eq_zero] using hne
  constructor
  · simp [registerSelectedApps, hlen,
      registerLoop_allOk st.configForm st.apps respond hok st.selectedApps 0]
  · simp [registerSelectedApps, hlen,
      registerLoop_allOk st.configForm st.apps respond hok st.selectedApps 0,
      length_filterMap_isSome]

/-- C10 witness: with two selected ids of which only one is still in the
scan set, the batch succeeds with exactly one call — strictly fewer than
the selection size. -/
theorem c10_skip_missing_selected_witness :
    (registerSelectedApps mixedSelectionState (fun _ => true)).outcome =
      RegisterOutcome.success ∧
    (registerSelectedApps mixedSelectionState (fun _ => true)).calls.length = 1 ∧
    mixedSelectionState.selectedApps.length = 2 := by
  have h := c10_skip_missing_selected mixedSelectionState (fun _ => true)
    (fun _ => rfl) (by simp [mixedSelectionState])
  exact ⟨h.1, by rw [h.2]; rfl, rfl⟩

/-! ## Claim C3 -/

/-- C3 counterexample: the scan performs no key-prefix inference — with an
API key prefixed `workflow-`, the key-derived candidate still has type
`chat`, while the claim demands type `workflow`. -/
theorem c3_prefix_inference_counterexample :
    "workflow-w" = "workflow-" ++ "w" ∧
    (scanDifyApps { difyHost := "http://h", apiKey := "workflow-w" }).head?.map
      (fun a => (a.id, a.type)) = some ("workflow-w", AppType.chat) ∧
    AppType.chat ≠ AppType.workflow := by
  refine ⟨rfl, rfl, by decide⟩

/-- C3 (amended): the scan infers nothing from the key's prefix — for
every form it yields exactly one chat-typed candidate whose id is the API
key (whatever its prefix) plus one fixed workflow-typed example; the
claim's concrete scenario does hold: scanned with host `http://h` and key
`app-abc`, the key-derived candidate has type `chat` and its constructed
registration URL is `http://h/v1/chat-messages`. -/
theorem c3_scan_types_amended (form : DifyConfigFormState) :
    (scanDifyApps form).map (fun a => (a.id, a.type)) =
      [(form.apiKey, AppType.chat),
       ("example-workflow-001", AppType.workflow)] ∧
    (scanDifyApps sampleForm).head?.map
      (fun a => (a.type, (mkRegistrationCall sampleForm a).url)) =
      some (AppType.chat, "http://h/v1/chat-messages") := by
  exact ⟨rfl, rfl⟩

/-! ## Claim C4 -/

/-- C4 counterexample: a direct batch registration that completes with
every backend call succeeding neither appends the processed app to
the imported-apps list (it stays empty) nor clears the selection list. -/
theorem c4_append_clear_counterexample :
    (registerSelectedApps sampleState (fun _ => true)).outcome =
      RegisterOutcome.success ∧
    (registerSelectedApps sampleState (fun _ => true)).importedAppsAfter ≠
      sampleState.importedApps ++ [sampleApp] ∧
    (registerSelectedApps sampleState (fun _ => true)).selectedAppsAfter ≠
      [] := by
  refine ⟨rfl, by decide, by decide⟩

/-- C4 (amended): the page's direct batch registration
(`registerSelectedApps`) leaves both the imported-apps list and the
selection unchanged on every path (on success the page navigates to the
plugin library instead); only the modal-driven path
(`handleImportSuccess`) appends the processed apps to the imported-apps
list when every backend call succeeds, and it too leaves the page's
selection list unchanged. -/
theorem c4_register_no_append_amended (st : PageState)
    (respond : Nat → Bool) (given : List DifyApp) :
    (registerSelectedApps st respond).importedAppsAfter = st.importedApps ∧
    (registerSelectedApps st respond).selectedAppsAfter = st.selectedApps ∧
    ((∀ k, respond k = true) →
      (handleImportSuccess st given respond).outcome =
        RegisterOutcome.success ∧
      (handleImportSuccess st given respond).importedAppsAfter =
        st.importedApps ++ given ∧
      (handleImportSuccess st given respond).selectedAppsAfter =
        st.selectedApps ∧
      (handleImportSuccess st given respond).navigated = true) := by
  refine ⟨?_, ?_, ?_⟩
  · by_cases h : st.selectedApps.length = 0 <;> simp [registerSelectedApps, h]
  · by_cases h : st.selectedApps.length = 0 <;> simp [registerSelectedApps, h]
  · intro hok
    have hloop := importSuccessLoop_allOk st.configForm respond hok given 0
    refine ⟨?_, ?_, ?_, ?_⟩ <;> simp [handleImportSuccess, hloop]

/-- C4 witness: at a concrete state with one given app and an all-ok
backend, the amended theorem evaluates: direct registration leaves the
lists unchanged, and the modal path appends the given app. -/
theorem c4_register_no_append_amended_witness :
    (registerSelectedApps sampleState (fun _ => true)).importedAppsAfter =
      [] ∧
    (handleImportSuccess sampleState [sampleApp]
      (fun _ => true)).importedAppsAfter = [sampleApp] := by
  have h := c4_register_no_append_amended sampleState (fun _ => true)
    [sampleApp]
  exact ⟨h.1, by simpa [sampleState] using (h.2.2 (fun _ => rfl)).2.1⟩

/-! ## Claim C2 -/

/-- C2: the publish menu entry is visible (not hidden) iff the global
publish-entry flag is enabled, the record is not an image-flow excluded by
the `store_imageflow` feature flag, the current user id equals the
record's creator id, and the parsed biz-extend's plugin id differs from
the zero sentinel.  The claim's "in particular" clause — hidden whenever
the viewer is not the creator — is the contrapositive of the third
conjunct. -/
theorem c2_publish_visibility_iff (enablePublishEntry storeImageflowFlag : Bool)
    (userId : Option String) (record : ResourceInfo) :
    (renderWorkflowResourceActions enablePublishEntry storeImageflowFlag
        userId record).publish.hide = false ↔
      (enablePublishEntry = true ∧
       (storeImageflowFlag = true ∨ record.res_type ≠ ResType.Imageflow) ∧
       record.creator_id = userId ∧
       (parseWorkflowResourceBizExtend record.biz_extend).plugin_id ≠ "0") := by
  cases enablePublishEntry <;> cases storeImageflowFlag <;>
    simp [renderWorkflowResourceActions, parseWorkflowResourceBizExtend,
      not_or, and_assoc]

/-! ## Claim C5 -/

/-- Selects the rendered menu entry that corresponds to a server action
key. -/
def entryFor (r : RenderedActions) : ActionKey → MenuEntry
  | ActionKey.Edit => r.edit
  | ActionKey.Delete => r.deleteEntry
  | ActionKey.Copy => r.copyEntry
  | ActionKey.SwitchToChatflow => r.switchChatflow
  | ActionKey.SwitchToFuncflow => r.switchWorkflow

/-- C5: for every server-keyed action (edit, delete, copy,
switch-to-chatflow, switch-to-workflow), a record whose server-supplied
action list has no entry for that key hides the menu entry entirely
(hidden, not merely disabled); and when the list's entry for that key has
`enable` explicitly `false`, the entry is visible but disabled. -/
theorem c5_server_keyed_actions (enablePublishEntry storeImageflowFlag : Bool)
    (userId : Option String) (record : ResourceInfo) (k : ActionKey) :
    (findAction record.actions k = none →
      (entryFor (renderWorkflowResourceActions enablePublishEntry
        storeImageflowFlag userId record) k).hide = true) ∧
    (∀ c, findAction record.actions k = some c → c.enable = some false →
      (entryFor (renderWorkflowResourceActions enablePublishEntry
        storeImageflowFlag userId record) k).hide = false ∧
      (entryFor (renderWorkflowResourceActions enablePublishEntry
        storeImageflowFlag userId record) k).disabled = true) := by
  constructor
  · intro h
    cases k <;>
      simp [entryFor, renderWorkflowResourceActions, serverEntry, h]
  · intro c hc he
    cases k <;>
      simp [entryFor, renderWorkflowResourceActions, serverEntry, hc, he]

/-- C5 witness: with a server action list containing only an
explicitly-disabled edit entry, the delete entry is hidden while the edit
entry is visible but disabled. -/
theorem c5_server_keyed_actions_witness :
    (entryFor (renderWorkflowResourceActions true true (some "u1")
      { sampleRecord with
        actions := some [{ key := ActionKey.Edit, enable := some false }] })
      ActionKey.Delete).hide = true ∧
    (entryFor (renderWorkflowResourceActions true true (some "u1")
      { sampleRecord with
        actions := some [{ key := ActionKey.Edit, enable := some false }] })
      ActionKey.Edit).hide = false ∧
    (entryFor (renderWorkflowResourceActions true true (some "u1")
      { sampleRecord with
        actions := some [{ key := ActionKey.Edit, enable := some false }] })
      ActionKey.Edit).disabled = true := by
  have h := c5_server_keyed_actions true true (some "u1")
    { sampleRecord with
      actions := some [{ key := ActionKey.Edit, enable := some false }] }
  exact ⟨(h ActionKey.Delete).1 rfl,
    ((h ActionKey.Edit).2 { key := ActionKey.Edit, enable := some false }
      rfl rfl).1,
    ((h ActionKey.Edit).2 { key := ActionKey.Edit, enable := some false }
      rfl rfl).2⟩

/-! ## Claim C6 -/

/-- C6: an imported file whose parsed content lacks the format marker
(`type` not strictly equal to `WORKFLOW_EXPORT`) or whose `schema` is
missing/falsy makes the import handler show the user-facing
invalid-format alert and return before any backend call — no
create-workflow call, no save, no refresh request. -/
theorem c6_import_invalid_format (content : JsVal) (spaceId : Option String)
    (now1 now2 : Nat) (stringify : JsVal → String)
    (createResp : Option String)
    (h : (content.get "type").strictEqStr "WORKFLOW_EXPORT" = false ∨
         (content.get "schema").truthy = false) :
    importOnLoad content spaceId now1 now2 stringify createResp =
      { calls := [], alert := some invalidFormatMsg,
        refreshRequested := false } := by
  have hv : importFormatValid content = false := by
    rcases h with h | h <;> simp [importFormatValid, h]
  simp [importOnLoad, hv]

/-- C6 witness: a concrete parsed file with no `type` property is rejected
with the invalid-format alert and zero backend calls. -/
theorem c6_import_invalid_format_witness :
    importOnLoad (.obj [("schema", .obj [])]) (some "s1") 0 0
      (fun _ => "") (some "w2") =
      { calls := [], alert := some invalidFormatMsg,
        refreshRequested := false } :=
  c6_import_invalid_format (.obj [("schema", .obj [])]) (some "s1") 0 0
    (fun _ => "") (some "w2") (Or.inl rfl)

/-! ## Claim C7 -/

/-- C7 counterexample: exporting a workflow whose fetched detail has no
`schema_json` does produce a download, but its document's `schema` field
is `null`, so feeding that very document back to the import handler hits
the invalid-format error branch (alert shown, zero backend calls) — the
claimed export→import round trip fails as stated. -/
theorem c7_roundtrip_counterexample :
    ((exportWorkflow sampleRecord (fun _ _ => some schemalessInfo)
        sampleJsonParse "t").download.map (fun d =>
          ((importOnLoad d.2 (some "s1") 0 0 (fun _ => "") (some "w2")).alert,
           (importOnLoad d.2 (some "s1") 0 0 (fun _ => "")
             (some "w2")).calls.length))) =
      some (some invalidFormatMsg, 0) := by
  rfl

/-- C7 (amended): every export document carries the format marker, and
whenever the fetched workflow detail carries a present, non-empty
`schema_json` whose parse is truthy, the document also carries a truthy
schema and passes the import operation's format validation; a workflow
whose detail lacks `schema_json` instead exports a document whose schema
is `null`, which that validation rejects. -/
theorem c7_roundtrip_amended (record : ResourceInfo) (info : WorkflowInfo)
    (parse : String → JsVal) (exportTime : String) (s : String)
    (hs : info.schema_json = some s) (hns : s ≠ "")
    (hp : (parse s).truthy = true) :
    ((exportDocument record info parse exportTime).get "type").strictEqStr
        "WORKFLOW_EXPORT" = true ∧
    importFormatValid (exportDocument record info parse exportTime) =
      true := by
  have htype : (exportDocument record info parse exportTime).get "type" =
      JsVal.str "WORKFLOW_EXPORT" := rfl
  have hschema : (exportDocument record info parse exportTime).get "schema" =
      (match info.schema_json with
       | some t => if t == "" then JsVal.null else parse t
       | none => JsVal.null) := rfl
  constructor
  · rw [htype]; rfl
  · simp only [importFormatValid, htype, hschema, hs]
    simp [JsVal.strictEqStr, beq_eq_false_iff_ne, hns, hp]

/-- C7 witness: a concrete workflow detail carrying an empty-object
`schema_json` text (whose parse is a truthy empty object) exports a
document accepted by the import operation's format validation. -/
theorem c7_roundtrip_amended_witness :
    importFormatValid (exportDocument sampleRecord schemaInfo
      sampleJsonParse "t") = true :=
  (c7_roundtrip_amended sampleRecord schemaInfo sampleJsonParse "t" "\x7b\x7d"
    rfl (by decide) rfl).2

/-! ## Claim C8 -/

/-- C8: exporting a record that is missing its resource id (or its space
id) returns after logging only — no backend call is made and no file
download is produced. -/
theorem c8_export_missing_id (record : ResourceInfo)
    (fetch : String → String → Option WorkflowInfo)
    (parse : String → JsVal) (exportTime : String)
    (h : record.res_id = none ∨ record.space_id = none) :
    exportWorkflow record fetch parse exportTime =
      { calls := [], download := none } := by
  rcases h with h | h <;> simp [exportWorkflow, strTruthy, h]

/-- C8 witness: a concrete record lacking its resource id exports to no
calls and no download. -/
theorem c8_export_missing_id_witness :
    exportWorkflow { sampleRecord with res_id := none }
      (fun _ _ => some schemaInfo) sampleJsonParse "t" =
      { calls := [], download := none } :=
  c8_export_missing_id { sampleRecord with res_id := none }
    (fun _ _ => some schemaInfo) sampleJsonParse "t" (Or.inl rfl)

/-! ## Claim C9 -/

/-- C9: the modal's import-from-text operation accepts a bare JSON array
(replacing the scanned-app list with exactly its elements) or a tagged
object with a truthy `apps` property (replacing the list with that
property's value); on the claim's concrete text the resulting scanned list
holds exactly one app, whose id is `x`. -/
theorem c9_import_from_text :
    (∀ xs : List JsVal,
      importFromText (some (JsVal.arr xs)) = some (JsVal.arr xs)) ∧
    (∀ config : JsVal, config.isArray = false →
      (config.get "apps").truthy = true →
      importFromText (some config) = some (config.get "apps")) ∧
    (importFromText (some scenarioTextParsed) =
        some (JsVal.arr [scenarioApp]) ∧
      (JsVal.arr [scenarioApp]).isArray = true ∧
      [scenarioApp].length = 1 ∧
      scenarioApp.get "id" = JsVal.str "x") := by
  refine ⟨fun xs => rfl, fun config hna ht => ?_, rfl, rfl, rfl, rfl⟩
  simp [importFromText, hna, ht]

/-- C9 witness: the general tagged-object branch of the theorem applied at
the claim's concrete parsed text. -/
theorem c9_import_from_text_witness :
    importFromText (some scenarioTextParsed) =
      some (scenarioTextParsed.get "apps") :=
  c9_import_from_text.2.1 scenarioTextParsed rfl rfl

end Coze
